import Mathlib

/-!
Verification development for the mission-management bot (`bot.py`).

The program keeps a SQLite table of missions, exposes slash commands
(`mission_add`, `mission_list`, `mission_done`, `mission_update`), a
paginated view (`MissionPager`), and a one-minute background scan
(`deadline_check`) that sends 24-hour / 1-hour deadline reminders.

The embedding models the missions table as a `List Mission` in rowid
order, timestamps as epoch seconds (`Int`), and the stored `deadline`
TEXT column as `Option DeadlineText`, where `DeadlineText.iso t` is an
ISO string that `datetime.fromisoformat` parses to time `t` and
`DeadlineText.bad` is text that makes it raise (the `try/except` path).
Discord I/O is abstracted: `getUser` models `bot.get_user` returning a
user or `None`, and `send` models `member.send`, returning `false` when
the awaited call raises.
-/

set_option maxHeartbeats 1000000

/-- The stored TEXT of the `deadline` column: either an ISO string
denoting epoch second `t`, or text on which `fromisoformat` raises. -/
inductive DeadlineText where
  | iso (t : Int)
  | bad
deriving DecidableEq

/-- `datetime.fromisoformat` wrapped in the scanner's `try/except`:
`none` when the column is NULL or the text is unparsable. -/
def fromisoformat : Option DeadlineText → Option Int
  | some (DeadlineText.iso t) => some t
  | _ => none

/-- One row of the `missions` table (CREATE_SQL in bot.py). -/
structure Mission where
  id : Nat
  guild : Int
  author : Int
  assignee : Int
  description : String
  deadline : Option DeadlineText
  status : String
  done : Bool
  reminded_24 : Bool
  reminded_1 : Bool
deriving DecidableEq

/-- AUTOINCREMENT: the next id is one past the largest id ever used
(no row is ever deleted, so that is the largest current id). -/
def next_id (store : List Mission) : Nat :=
  (store.map Mission.id).foldr max 0 + 1

/-- `add_mission`: INSERT INTO missions (guild, author, assignee,
description, deadline); `status` defaults to "En cours" and the three
boolean flags default to 0. -/
def add_mission (guild author assignee : Int) (desc : String)
    (dl_iso : Option DeadlineText) (store : List Mission) : List Mission :=
  store ++ [⟨next_id store, guild, author, assignee, desc, dl_iso,
             "En cours", false, false, false⟩]

/-- `complete_mission`: UPDATE missions SET done=1 WHERE id=? AND guild=?. -/
def complete_mission (mid : Nat) (guild : Int) (store : List Mission) :
    List Mission :=
  store.map (fun m =>
    if m.id = mid ∧ m.guild = guild then { m with done := true } else m)

/-- `update_mission_status`: SELECT assignee WHERE id=? AND guild=?;
return False when no row matches or the assignee differs from the
caller; otherwise UPDATE SET status=? WHERE id=? and return True. -/
def update_mission_status (mid : Nat) (guild user_id : Int)
    (new_status : String) (store : List Mission) : Bool × List Mission :=
  match store.find? (fun m => m.id == mid && m.guild == guild) with
  | none => (false, store)
  | some m =>
    if m.assignee ≠ user_id then (false, store)
    else (true,
      store.map (fun x =>
        if x.id = mid then { x with status := new_status } else x))

/-- The ephemeral reply of `/mission_update` when
`update_mission_status` returns False. -/
def notAssigneeMsg : String := "🚫 Vous n’êtes pas l’assigné de cette mission."

/-- The reply of `/mission_update` on success. -/
def statusOkMsg (statut : String) : String :=
  "✅ Statut mis à jour : **" ++ statut ++ "**"

/-- The `/mission_update` command: runs `update_mission_status` with the
caller's id and answers with one of two messages. -/
def mission_update (inter_guild inter_user : Int) (mid : Nat)
    (statut : String) (store : List Mission) : String × List Mission :=
  let r := update_mission_status mid inter_guild inter_user statut store
  if r.1 = false then (notAssigneeMsg, r.2)
  else (statusOkMsg statut, r.2)

/-- The seven role ids of ASSIGNER_ROLES. -/
def ASSIGNER_ROLES : List Int :=
  [1379270374914789577, 1379270378672885811, 1379270389343191102,
   1379270382405554266, 1379270385861660703, 1379270400688652342,
   1382834652162818089]

/-- BLOCKED_RECEIVER — the same identifier as the first entry of
ASSIGNER_ROLES (the "chef" role). -/
def BLOCKED_RECEIVER : Int := 1379270374914789577

/-- A guild member as the commands see one: a user id plus role ids. -/
structure MemberM where
  id : Int
  roles : List Int
deriving DecidableEq

/-- `is_assigner`: the member holds at least one ASSIGNER_ROLES role. -/
def is_assigner (member : MemberM) : Bool :=
  member.roles.any (fun r => ASSIGNER_ROLES.contains r)

/-- Outcome of `/mission_add`: the guard's CheckFailure, the
blocked-receiver refusal, or the confirmation reply. -/
inductive AddOutcome where
  | checkFailure (msg : String)
  | blocked (msg : String)
  | ok (msg : String)
deriving DecidableEq

/-- The confirmation built by `mission_add` (mention plus optional
`<t:..:F>` timestamp). -/
def confirmMsg (membre : MemberM) (deadline : Option Int) : String :=
  match deadline with
  | some t => "✅ Mission assignée à <@" ++ toString membre.id ++
      ">, échéance <t:" ++ toString t ++ ":F>."
  | none => "✅ Mission assignée à <@" ++ toString membre.id ++ ">."

/-- The `/mission_add` command: the `guard()` decorator first, then the
`membre.id == BLOCKED_RECEIVER` test, then the INSERT. The `deadline`
parameter arrives already parsed (`Optional[dt.datetime]`), and is
stored as its isoformat string. -/
def mission_add (caller : MemberM) (inter_guild : Int) (membre : MemberM)
    (description : String) (deadline : Option Int) (store : List Mission) :
    AddOutcome × List Mission :=
  if is_assigner caller = false then
    (AddOutcome.checkFailure "🚫 Vous n’avez pas le rôle requis.", store)
  else if membre.id = BLOCKED_RECEIVER then
    (AddOutcome.blocked ("🚫 <@" ++ toString membre.id ++
        "> ne peut pas recevoir de missions."), store)
  else
    (AddOutcome.ok (confirmMsg membre deadline),
     add_mission inter_guild caller.id membre.id description
       (deadline.map DeadlineText.iso) store)

/-- PAGE_SIZE = 20. -/
def PAGE_SIZE : Nat := 20

/-- The `MissionPager` view: an immutable snapshot of rows, a title and
a zero-based page cursor (the discord timeout is transport detail and
is not modelled). -/
structure MissionPager (α : Type) where
  data : List α
  title : String
  page : Nat
deriving DecidableEq

/-- The ▶ button: advance only when `(page+1)*PAGE_SIZE < len(data)`. -/
def MissionPager.next {α : Type} (v : MissionPager α) : MissionPager α :=
  if (v.page + 1) * PAGE_SIZE < v.data.length then
    { v with page := v.page + 1 }
  else v

/-- The ◀ button: retreat only when `page > 0`. -/
def MissionPager.prev {α : Type} (v : MissionPager α) : MissionPager α :=
  if 0 < v.page then { v with page := v.page - 1 } else v

/-- The one-hour reminder text. -/
def oneHourMsg (desc : String) : String :=
  "⏰ La mission « " ++ desc ++ " » est due dans 1 h !"

/-- The 24-hour reminder text. -/
def dayMsg (desc : String) : String :=
  "⏰ La mission « " ++ desc ++ " » est due dans 24 h ."

/-- UPDATE missions SET reminded_1=1 WHERE id=?. -/
def setR1 (mid : Nat) (store : List Mission) : List Mission :=
  store.map (fun m => if m.id = mid then { m with reminded_1 := true } else m)

/-- UPDATE missions SET reminded_24=1 WHERE id=?. -/
def setR24 (mid : Nat) (store : List Mission) : List Mission :=
  store.map (fun m => if m.id = mid then { m with reminded_24 := true } else m)

/-- Result of one `deadline_check` pass: the table afterwards, the
direct messages actually delivered in order, and whether an uncaught
exception escaped the `for` loop (aborting the rest of the batch). -/
structure ScanOutcome where
  store : List Mission
  sent : List (Int × String)
  crashed : Bool
deriving DecidableEq

/-- The body of `deadline_check`'s `for` loop over the fetched rows.
Per row: parse the deadline (`continue` on failure), resolve the
assignee (`continue` on `None`), then fire at most one of the two
threshold branches; the message is sent before the flag UPDATE, and a
raising `send` propagates out of the loop with the store as already
committed. -/
def scanLoop (getUser : Int → Bool) (send : Int → String → Bool)
    (now : Int) :
    List Mission → List Mission → List (Int × String) → ScanOutcome
  | [], store, sent => ⟨store, sent, false⟩
  | m :: rest, store, sent =>
    match fromisoformat m.deadline with
    | none => scanLoop getUser send now rest store sent
    | some due =>
      if getUser m.assignee = false then
        scanLoop getUser send now rest store sent
      else if 0 < due - now ∧ due - now ≤ 3600 ∧ m.reminded_1 = false then
        if send m.assignee (oneHourMsg m.description) = true then
          scanLoop getUser send now rest (setR1 m.id store)
            (sent ++ [(m.assignee, oneHourMsg m.description)])
        else ⟨store, sent, true⟩
      else if 3600 < due - now ∧ due - now ≤ 86400 ∧ m.reminded_24 = false then
        if send m.assignee (dayMsg m.description) = true then
          scanLoop getUser send now rest (setR24 m.id store)
            (sent ++ [(m.assignee, dayMsg m.description)])
        else ⟨store, sent, true⟩
      else scanLoop getUser send now rest store sent

/-- One pass of the `deadline_check` task: fetch the rows with
`done=0 AND deadline IS NOT NULL` as a snapshot, then run the loop. -/
def deadline_check (getUser : Int → Bool) (send : Int → String → Bool)
    (now : Int) (store : List Mission) : ScanOutcome :=
  scanLoop getUser send now
    (store.filter (fun m => !m.done && m.deadline.isSome)) store []

/-- An open mission due at second 1800, assigned to user 10. -/
def mOpen : Mission :=
  ⟨1, 0, 7, 10, "rapport hebdo", some (DeadlineText.iso 1800),
   "En cours", false, false, false⟩

/-- A second open mission due at second 1800, assigned to user 20. -/
def mOpen2 : Mission :=
  ⟨2, 0, 7, 20, "compte rendu", some (DeadlineText.iso 1800),
   "En cours", false, false, false⟩

/-- A mission already marked done. -/
def mDone : Mission :=
  ⟨1, 0, 7, 5, "archivage", none, "En cours", true, false, false⟩

/-- An open dateless mission assigned to user 10. -/
def mBase : Mission :=
  ⟨1, 0, 7, 10, "base", none, "En cours", false, false, false⟩

/-- A one-row table. -/
def storeOne : List Mission := [mBase]

/-- A caller holding the second ASSIGNER_ROLES role. -/
def callerA : MemberM := ⟨1, [1379270378672885811]⟩

/-- A member of the BLOCKED_RECEIVER ("chef") role whose user id, 42,
differs from the role id. -/
def membreChef : MemberM := ⟨42, [1379270374914789577]⟩

/-- A member with no roles, not blocked. -/
def membreB : MemberM := ⟨42, []⟩

/-- A 45-row snapshot at page 0. -/
def pager45 : MissionPager Nat := ⟨List.range 45, "Missions", 0⟩

/-- Claim C9: `next` advances the zero-based cursor only when
`(page+1)*PAGE_SIZE < total` and `prev` retreats only when `page > 0`,
both no-ops otherwise; on a 45-row snapshot `next` succeeds exactly
twice (pages 0→1→2, third call a no-op) and `prev` from page 2 reaches
page 0 in two calls with a third call a no-op. -/
theorem C9_pager_navigation :
    (∀ (α : Type) (v : MissionPager α),
        v.next.page
          = (if (v.page + 1) * PAGE_SIZE < v.data.length then v.page + 1
             else v.page)
      ∧ v.next.data = v.data
      ∧ v.prev.page = (if 0 < v.page then v.page - 1 else v.page)
      ∧ v.prev.data = v.data)
    ∧ (pager45.next.page = 1 ∧ pager45.next.next.page = 2
      ∧ pager45.next.next.next = pager45.next.next
      ∧ pager45.next.next.prev.page = 1
      ∧ pager45.next.next.prev.prev.page = 0
      ∧ pager45.next.next.prev.prev.prev = pager45.next.next.prev.prev) := by
  constructor
  · intro α v
    refine ⟨?_, ?_, ?_, ?_⟩ <;>
      · simp only [MissionPager.next, MissionPager.prev]
        split <;> rfl
  · decide

/-- Claim C7 (amended only in presentation): `complete_mission` is
idempotent — a second UPDATE done=1 on the same id/guild changes
nothing (and raises no error) — and every row it targets has
`done = true` afterwards. -/
theorem C7_complete_idempotent (mid : Nat) (g : Int) (s : List Mission) :
    complete_mission mid g (complete_mission mid g s) = complete_mission mid g s
    ∧ ∀ m ∈ complete_mission mid g s, m.id = mid → m.guild = g →
        m.done = true := by
  constructor
  · induction s with
    | nil => rfl
    | cons a t ih =>
      by_cases h : a.id = mid ∧ a.guild = g
      · simp [complete_mission, h] at ih ⊢
        exact ih
      · simp [complete_mission, h] at ih ⊢
        exact ih
  · intro m hm h1 h2
    simp only [complete_mission, List.mem_map] at hm
    obtain ⟨x, _, hxm⟩ := hm
    by_cases h : x.id = mid ∧ x.guild = g
    · rw [if_pos h] at hxm
      subst hxm
      rfl
    · rw [if_neg h] at hxm
      subst hxm
      exact absurd ⟨h1, h2⟩ h

/-- Witness for C7: concrete two-fold completion of mission 1 in
`storeOne`, and the completed row is done. -/
theorem C7_witness :
    complete_mission 1 0 (complete_mission 1 0 storeOne)
      = complete_mission 1 0 storeOne
    ∧ ({ mBase with done := true } : Mission).done = true := by
  refine ⟨(C7_complete_idempotent 1 0 storeOne).1, ?_⟩
  exact (C7_complete_idempotent 1 0 storeOne).2
    { mBase with done := true } (by decide) (by decide) (by decide)

/-- Claim C8: for an existing mission, a caller who is not its assignee
gets `False` back from `update_mission_status` and the table is
unchanged. -/
theorem C8_non_assignee_forbidden (store : List Mission) (mid : Nat)
    (g uid : Int) (st : String) (m : Mission)
    (hfind : store.find? (fun x => x.id == mid && x.guild == g) = some m)
    (hne : m.assignee ≠ uid) :
    update_mission_status mid g uid st store = (false, store) := by
  simp [update_mission_status, hfind, hne]

/-- Witness for C8: user 99 cannot update mission 1 (assigned to 10). -/
theorem C8_witness :
    update_mission_status 1 0 99 "avance" storeOne = (false, storeOne) := by
  exact C8_non_assignee_forbidden storeOne 1 0 99 "avance" mBase
    (by decide) (by decide)

/-- Helper: a singleton table whose row is open and dated survives the
scanner's SQL filter unchanged. -/
theorem filter_open_dated (m : Mission) (hdone : m.done = false)
    (hsome : m.deadline.isSome = true) :
    [m].filter (fun x => !x.done && x.deadline.isSome) = [m] := by
  simp [List.filter, hdone, hsome]

/-- Claim C10: a mission whose deadline is at or before the scan time
(remaining ≤ 0) gets no notification and keeps both reminded flags, on
that scan and on every later one. -/
theorem C10_overdue_never_reminded (m : Mission) (due now : Int)
    (hdl : m.deadline = some (DeadlineText.iso due)) (hpast : due ≤ now)
    (getUser : Int → Bool) (send : Int → String → Bool) :
    ∀ now2, now ≤ now2 →
      deadline_check getUser send now2 [m] = ⟨[m], [], false⟩ := by
  intro now2 h2
  unfold deadline_check
  cases hdone : m.done with
  | true => simp [List.filter, hdone, scanLoop]
  | false =>
    rw [filter_open_dated m hdone (by rw [hdl]; rfl)]
    simp only [scanLoop, fromisoformat, hdl]
    cases hg : getUser m.assignee with
    | false => simp [scanLoop]
    | true =>
      rw [if_neg (by simp), if_neg (by rintro ⟨h, _⟩; omega),
          if_neg (by rintro ⟨h, _⟩; omega)]

/-- Witness for C10: mission `mOpen` (due at 1800) scanned at 5000 is
left alone. -/
theorem C10_witness :
    deadline_check (fun _ => true) (fun _ _ => true) 5000 [mOpen]
      = ⟨[mOpen], [], false⟩ := by
  exact C10_overdue_never_reminded mOpen 1800 1800 rfl (by decide)
    (fun _ => true) (fun _ _ => true) 5000 (by decide)

/-- Helper: once `reminded_1` is set and the remaining time can no
longer exceed one hour, a scan of the single mission does nothing. -/
theorem scan_single_no_action (m : Mission) (due now : Int)
    (hdl : m.deadline = some (DeadlineText.iso due))
    (hr1 : m.reminded_1 = true) (hhi : due - now ≤ 3600)
    (getUser : Int → Bool) (send : Int → String → Bool) :
    deadline_check getUser send now [m] = ⟨[m], [], false⟩ := by
  unfold deadline_check
  cases hdone : m.done with
  | true => simp [List.filter, hdone, scanLoop]
  | false =>
    rw [filter_open_dated m hdone (by rw [hdl]; rfl)]
    simp only [scanLoop, fromisoformat, hdl]
    cases hg : getUser m.assignee with
    | false => simp [scanLoop]
    | true =>
      rw [if_neg (by simp), if_neg (by rintro ⟨_, _, hcon⟩; simp [hr1] at hcon),
          if_neg (by rintro ⟨hcon, _⟩; omega)]

/-- Claim C2: a mission first seen with remaining time in (0, 1h] and
both flags clear gets exactly the one-hour notice, `reminded_1` is set,
`reminded_24` stays false, and every scan from then on (the immediate
repeat included) emits nothing further for it. -/
theorem C2_first_scan_in_window (m : Mission) (due now : Int)
    (hdone : m.done = false) (hdl : m.deadline = some (DeadlineText.iso due))
    (hr1 : m.reminded_1 = false) (hr24 : m.reminded_24 = false)
    (hlo : 0 < due - now) (hhi : due - now ≤ 3600)
    (getUser : Int → Bool) (send : Int → String → Bool)
    (hg : getUser m.assignee = true)
    (hs : send m.assignee (oneHourMsg m.description) = true) :
    deadline_check getUser send now [m]
      = ⟨[{ m with reminded_1 := true }],
         [(m.assignee, oneHourMsg m.description)], false⟩
    ∧ ({ m with reminded_1 := true } : Mission).reminded_24 = false
    ∧ ∀ now2, now ≤ now2 →
        deadline_check getUser send now2 [{ m with reminded_1 := true }]
          = ⟨[{ m with reminded_1 := true }], [], false⟩ := by
  refine ⟨?_, hr24, ?_⟩
  · unfold deadline_check
    rw [filter_open_dated m hdone (by rw [hdl]; rfl)]
    simp only [scanLoop, fromisoformat, hdl, hg, hs]
    rw [if_neg (by simp), if_pos ⟨hlo, hhi, hr1⟩, if_pos trivial]
    simp [scanLoop, setR1, hdl]
  · intro now2 hnow2
    have hdl2 : ({ m with reminded_1 := true } : Mission).deadline
        = some (DeadlineText.iso due) := hdl
    exact scan_single_no_action _ due now2 hdl2 rfl (by omega) getUser send

/-- Witness for C2: `mOpen` (due at 1800) scanned at 0 then at 60. -/
theorem C2_witness :
    deadline_check (fun _ => true) (fun _ _ => true) 0 [mOpen]
      = ⟨[{ mOpen with reminded_1 := true }],
         [(10, oneHourMsg "rapport hebdo")], false⟩
    ∧ deadline_check (fun _ => true) (fun _ _ => true) 60
        [{ mOpen with reminded_1 := true }]
      = ⟨[{ mOpen with reminded_1 := true }], [], false⟩ := by
  have h := C2_first_scan_in_window mOpen 1800 0 rfl rfl rfl rfl
    (by decide) (by decide) (fun _ => true) (fun _ _ => true) rfl rfl
  exact ⟨h.1, h.2.2 60 (by decide)⟩

/-- Counterexample to C1 as stated: `mDone` is done, yet
`update_mission_status` by its assignee (user 5) returns True and
overwrites the stored status. -/
theorem C1_counterexample :
    mDone.done = true ∧ mDone.status = "En cours"
    ∧ update_mission_status 1 0 5 "relu" [mDone]
      = (true, [{ mDone with status := "relu" }])
    ∧ ({ mDone with status := "relu" } : Mission).status ≠ "En cours" := by
  decide

/-- Claim C1 amended: once `done` is true the deadline scanner never
emits for the mission nor touches its reminder flags, but
`update_mission_status` by the assignee still overwrites `status`
(the UPDATE carries no `done` guard). -/
theorem C1_amended_terminal (m : Mission) (hdone : m.done = true) :
    (∀ (getUser : Int → Bool) (send : Int → String → Bool) (now : Int),
        deadline_check getUser send now [m] = ⟨[m], [], false⟩)
    ∧ (∀ (store : List Mission) (mid : Nat) (g uid : Int) (st : String)
          (mm : Mission),
        store.find? (fun x => x.id == mid && x.guild == g) = some mm →
        mm.assignee = uid → mm.done = true →
        update_mission_status mid g uid st store
          = (true, store.map (fun x =>
              if x.id = mid then { x with status := st } else x))) := by
  constructor
  · intro getUser send now
    unfold deadline_check
    simp [List.filter, hdone, scanLoop]
  · intro store mid g uid st mm hfind heq _
    simp [update_mission_status, hfind, heq]

/-- Witness for C1 amended: the scanner skips `mDone`, and its assignee
still rewrites the status of the done mission. -/
theorem C1_witness :
    deadline_check (fun _ => true) (fun _ _ => true) 0 [mDone]
      = ⟨[mDone], [], false⟩
    ∧ update_mission_status 1 0 5 "classé" [mDone]
      = (true, [{ mDone with status := "classé" }]) := by
  have h := C1_amended_terminal mDone rfl
  refine ⟨h.1 (fun _ => true) (fun _ _ => true) 0, ?_⟩
  exact (h.2 [mDone] 1 0 5 "classé" mDone (by decide) rfl rfl).trans (by decide)

/-- Counterexample to C5 as stated: id 2 does not exist in `storeOne`,
yet the outcome is the very same single failure (False, surfaced as the
"not the assignee" reply) as the ownership failure on id 1 — there is
no distinct NotFound outcome. -/
theorem C5_counterexample :
    mission_update 0 10 2 "avancée" storeOne = (notAssigneeMsg, storeOne)
    ∧ mission_update 0 99 1 "avancée" storeOne = (notAssigneeMsg, storeOne)
    ∧ update_mission_status 2 0 10 "avancée" storeOne
      = update_mission_status 1 0 99 "avancée" storeOne := by
  decide

/-- Claim C5 amended: `update_mission_status` conflates its failures —
a missing id and a non-assignee caller both yield False, and
`mission_update` surfaces both as the same "not the assignee" reply;
when the row exists and the caller is its assignee, the status is
overwritten unconditionally. -/
theorem C5_amended_conflated (store : List Mission) (mid : Nat)
    (g uid : Int) (st : String) :
    (store.find? (fun x => x.id == mid && x.guild == g) = none →
        mission_update g uid mid st store = (notAssigneeMsg, store))
    ∧ (∀ mm, store.find? (fun x => x.id == mid && x.guild == g) = some mm →
        mm.assignee ≠ uid →
        mission_update g uid mid st store = (notAssigneeMsg, store))
    ∧ (∀ mm, store.find? (fun x => x.id == mid && x.guild == g) = some mm →
        mm.assignee = uid →
        mission_update g uid mid st store
          = (statusOkMsg st, store.map (fun x =>
              if x.id = mid then { x with status := st } else x))) := by
  refine ⟨?_, ?_, ?_⟩
  · intro hfind
    simp [mission_update, update_mission_status, hfind]
  · intro mm hfind hne
    simp [mission_update, update_mission_status, hfind, hne]
  · intro mm hfind heq
    simp [mission_update, update_mission_status, hfind, heq]

/-- Witness for C5 amended: the three branches on `storeOne`
(mission 1, assignee 10). -/
theorem C5_witness :
    mission_update 0 10 5 "notes" storeOne = (notAssigneeMsg, storeOne)
    ∧ mission_update 0 99 1 "notes" storeOne = (notAssigneeMsg, storeOne)
    ∧ mission_update 0 10 1 "notes" storeOne
      = (statusOkMsg "notes", [{ mBase with status := "notes" }]) := by
  refine ⟨(C5_amended_conflated storeOne 5 0 10 "notes").1 (by decide),
    (C5_amended_conflated storeOne 1 0 99 "notes").2.1 mBase
      (by decide) (by decide),
    ((C5_amended_conflated storeOne 1 0 10 "notes").2.2 mBase
      (by decide) rfl).trans (by decide)⟩

/-- Claim C3 (code bug): user 42 holds the BLOCKED_RECEIVER role, yet
`mission_add` compares the member's user id — not their roles — to the
role id, so the creation succeeds and the table gains a row. -/
theorem C3_blocked_role_member_gets_mission :
    membreChef.roles.contains BLOCKED_RECEIVER = true
    ∧ (mission_add callerA 0 membreChef "rapport" none []).1
        = AddOutcome.ok (confirmMsg membreChef none)
    ∧ (mission_add callerA 0 membreChef "rapport" none []).2.length = 1 := by
  decide

/-- Counterexample to C6 as stated: `send` raises for user 10 only;
`mOpen2` (user 20, whose delivery would succeed) is in the same batch
and inside its window, yet the scan aborts with nothing sent —
remaining missions are not evaluated and the loop does crash. -/
theorem C6_counterexample :
    deadline_check (fun _ => true) (fun uid _ => decide (uid ≠ 10)) 0
        [mOpen, mOpen2]
      = ⟨[mOpen, mOpen2], [], true⟩
    ∧ (fun uid (_ : String) => decide (uid ≠ 10)) mOpen2.assignee
        (oneHourMsg mOpen2.description) = true := by
  decide

/-- Claim C6 amended: an unresolvable assignee is skipped and the rest
of the batch is still evaluated, and a failed delivery leaves the flag
unset — but the delivery failure is not caught, so the scan aborts and
the remaining missions of the batch are not evaluated until the next
cycle. -/
theorem C6_amended_delivery_vs_resolution (m1 m2 : Mission) (d1 d2 now : Int)
    (h1done : m1.done = false) (h2done : m2.done = false)
    (h1dl : m1.deadline = some (DeadlineText.iso d1))
    (h2dl : m2.deadline = some (DeadlineText.iso d2))
    (h1r : m1.reminded_1 = false) (h2r : m2.reminded_1 = false)
    (h1lo : 0 < d1 - now) (h1hi : d1 - now ≤ 3600)
    (h2lo : 0 < d2 - now) (h2hi : d2 - now ≤ 3600)
    (hid : m1.id ≠ m2.id)
    (getUserA : Int → Bool) (sendA : Int → String → Bool)
    (hgA1 : getUserA m1.assignee = false)
    (hgA2 : getUserA m2.assignee = true)
    (hsA2 : sendA m2.assignee (oneHourMsg m2.description) = true)
    (getUserB : Int → Bool) (sendB : Int → String → Bool)
    (hgB1 : getUserB m1.assignee = true)
    (hsB1 : sendB m1.assignee (oneHourMsg m1.description) = false) :
    deadline_check getUserA sendA now [m1, m2]
      = ⟨[m1, { m2 with reminded_1 := true }],
         [(m2.assignee, oneHourMsg m2.description)], false⟩
    ∧ deadline_check getUserB sendB now [m1, m2] = ⟨[m1, m2], [], true⟩ := by
  have hfilter : [m1, m2].filter (fun x => !x.done && x.deadline.isSome)
      = [m1, m2] := by
    simp [List.filter, h1done, h2done, h1dl, h2dl]
  constructor
  · unfold deadline_check
    rw [hfilter]
    simp only [scanLoop, fromisoformat, h1dl, h2dl, hgA1, hgA2, hsA2]
    rw [if_pos trivial, if_neg (by simp), if_pos ⟨h2lo, h2hi, h2r⟩,
        if_pos trivial]
    simp [scanLoop, setR1, hid, h2dl]
  · unfold deadline_check
    rw [hfilter]
    simp only [scanLoop, fromisoformat, h1dl, h2dl, hgB1, hsB1]
    rw [if_neg (by simp), if_pos ⟨h1lo, h1hi, h1r⟩, if_neg (by simp)]

/-- Witness for C6: the two scans of `[mOpen, mOpen2]` — user 10
unresolvable (rest of batch proceeds), then user 10 unreachable by DM
(scan aborts). -/
theorem C6_witness :
    deadline_check (fun uid => decide (uid = 20)) (fun _ _ => true) 0
        [mOpen, mOpen2]
      = ⟨[mOpen, { mOpen2 with reminded_1 := true }],
         [(20, oneHourMsg "compte rendu")], false⟩
    ∧ deadline_check (fun _ => true) (fun uid _ => decide (uid = 20)) 0
        [mOpen, mOpen2]
      = ⟨[mOpen, mOpen2], [], true⟩ := by
  have h := C6_amended_delivery_vs_resolution mOpen mOpen2 1800 1800 0
    rfl rfl rfl rfl rfl rfl (by decide) (by decide) (by decide) (by decide)
    (by decide) (fun uid => decide (uid = 20)) (fun _ _ => true)
    (by decide) (by decide) (by decide)
    (fun _ => true) (fun uid _ => decide (uid = 20)) (by decide) (by decide)
  exact ⟨h.1.trans (by decide), h.2⟩

/-- Counterexample to C4 as stated: an empty description (and a
deadline in the past of any positive clock) is accepted — the command
replies ok and the table gains a row instead of failing InvalidInput. -/
theorem C4_counterexample :
    (mission_add callerA 0 membreB "" (some (-3600)) []).1
      = AddOutcome.ok (confirmMsg membreB (some (-3600)))
    ∧ (mission_add callerA 0 membreB "" (some (-3600)) []).2 ≠ [] := by
  decide

/-- Claim C4 amended: `mission_add` performs no InvalidInput validation
at all — whenever the caller passes the role guard and the assignee's
user id is not the BLOCKED_RECEIVER constant, it persists the mission
and replies with a confirmation (not the new id), for every
description (empty included) and every deadline (past included). -/
theorem C4_amended_no_validation (caller membre : MemberM) (g : Int)
    (desc : String) (dl : Option Int) (store : List Mission)
    (hc : is_assigner caller = true) (hb : membre.id ≠ BLOCKED_RECEIVER) :
    mission_add caller g membre desc dl store
      = (AddOutcome.ok (confirmMsg membre dl),
         add_mission g caller.id membre.id desc (dl.map DeadlineText.iso)
           store)
    ∧ (mission_add caller g membre desc dl store).2.length
        = store.length + 1 := by
  have h1 : mission_add caller g membre desc dl store
      = (AddOutcome.ok (confirmMsg membre dl),
         add_mission g caller.id membre.id desc (dl.map DeadlineText.iso)
           store) := by
    simp [mission_add, hc, hb]
  refine ⟨h1, ?_⟩
  rw [h1]
  simp [add_mission]

/-- Witness for C4: an authorized caller assigns a mission with a blank
description and a deadline of epoch 5 to the unblocked user 42. -/
theorem C4_witness :
    mission_add callerA 0 membreB " " (some 5) []
      = (AddOutcome.ok (confirmMsg membreB (some 5)),
         add_mission 0 callerA.id membreB.id " "
           (some (DeadlineText.iso 5)) [])
    ∧ (mission_add callerA 0 membreB " " (some 5) []).2.length = 1 := by
  exact C4_amended_no_validation callerA membreB 0 " " (some 5) []
    (by decide) (by decide)
